import Mathlib

/-!
Verification of the intunja reverse-HTTP-tunnel repository.

The development shallowly embeds the two programs of the repository:

* the origin agent (tunnel client, file part_000): flag defaults, the
  reconnect loop Run, connect, the keep-alive task keepAlive, the dispatch
  loop handleRequests, the per-request job handleRequest, and the two
  response writers sendResponse and sendErrorResponse;
* the edge server (cmd/server/main.go): the route table registered by
  main and the WebSocket loop handleTunnel.

State and I/O are embedded as explicit data: each Go function that performs
socket or lock operations is represented by the finite trace of those
operations, and each loop is represented by a step function on the read or
tick events it consumes.
-/

namespace Intunja

/-! ## HTTP headers

Go http.Header is a map from canonical header keys to lists of values.
All keys manipulated by the repository code are already in canonical MIME
form, so canonicalisation is the identity here and the map is embedded as
an association list: set replaces the whole entry for a key, lookup finds
the entry of a key. -/

abbrev Header := List (String × List String)

/-- Go Header.Clone: a copy with the same entries. -/
def Header.clone (h : Header) : Header := h

/-- Go Header.Set k v: the entry for k becomes the single value v, other
entries are unchanged (map assignment). -/
def Header.set (h : Header) (k v : String) : Header :=
  (k, [v]) :: h.filter (fun kv => !(kv.1 == k))

/-- Lookup of a key in a header. -/
def Header.get (h : Header) (k : String) : Option (List String) :=
  h.lookup k

theorem Header.lookup_filter_ne (h : Header) (k k' : String) (hne : k' ≠ k) :
    (h.filter (fun kv => !(kv.1 == k))).lookup k' = h.lookup k' := by
  induction h with
  | nil => rfl
  | cons kv t ih =>
    by_cases hk : kv.1 = k
    · have h1 : (kv.1 == k) = true := beq_iff_eq.mpr hk
      have h2 : (k' == kv.1) = false := by
        apply beq_eq_false_iff_ne.mpr
        rw [hk]; exact hne
      simp [List.filter, h1, List.lookup, h2, ih]
    · have h1 : (kv.1 == k) = false := beq_eq_false_iff_ne.mpr hk
      by_cases hk' : k' = kv.1
      · have h2 : (k' == kv.1) = true := beq_iff_eq.mpr hk'
        simp [List.filter, h1, List.lookup, h2]
      · have h2 : (k' == kv.1) = false := beq_eq_false_iff_ne.mpr hk'
        simp [List.filter, h1, List.lookup, h2, ih]

theorem Header.get_set_self (h : Header) (k v : String) :
    Header.get (Header.set h k v) k = some [v] := by
  simp [Header.get, Header.set, List.lookup]

theorem Header.get_set_other (h : Header) (k k' v : String) (hne : k' ≠ k) :
    Header.get (Header.set h k v) k' = Header.get h k' := by
  have h2 : (k' == k) = false := beq_eq_false_iff_ne.mpr hne
  simp [Header.get, Header.set, List.lookup, h2, Header.lookup_filter_ne h k k' hne]

/-! ## Requests and responses on the tunnel -/

/-- An inbound HTTP request parsed from the tunnel by http.ReadRequest.
urlString is the string form of the parsed URL, req.URL.String(), i.e. the
original request URI as re-serialised by the URL type; body stands for the
body reader of the request. -/
structure Request where
  method : String
  urlString : String
  header : Header
  body : String
  remoteAddr : String
deriving Repr, DecidableEq

/-- An HTTP response as held by the origin before serialisation. -/
structure Response where
  statusCode : Nat
  statusText : String
  header : Header
  bodyText : String
deriving Repr, DecidableEq

/-- The outbound request the origin issues against the local API,
as built by handleRequest via http.NewRequestWithContext. -/
structure LocalRequest where
  method : String
  url : String
  header : Header
  body : String
deriving Repr, DecidableEq

/-- Embedding of the request-construction part of TunnelClient.handleRequest
(part_000 lines 196-219): localURL is localAddr concatenated with
req.URL.String(); the new request carries the inbound method and body; its
header is a clone of the inbound header, then X-Forwarded-For is set to
req.RemoteAddr when that is non-empty, then X-Forwarded-Proto is set to
http. -/
def forwardHeader (h : Header) (remoteAddr : String) : Header :=
  Header.set
    (if remoteAddr ≠ "" then Header.set (Header.clone h) "X-Forwarded-For" remoteAddr
     else Header.clone h)
    "X-Forwarded-Proto" "http"

def buildLocalRequest (localAddr : String) (req : Request) : LocalRequest :=
  { method := req.method, url := localAddr ++ req.urlString,
    header := forwardHeader req.header req.remoteAddr, body := req.body }

/-- C5: for every request parsed from the tunnel, the upstream request has
URL equal to the configured local base concatenated with the original
request URI, the same method, a copy of the inbound headers (unchanged at
every key other than the two forwarding keys), the inbound body, with
X-Forwarded-For set to RemoteAddr whenever RemoteAddr is non-empty and
X-Forwarded-Proto set to http. -/
theorem upstream_request_construction (localAddr : String) (req : Request) :
    (buildLocalRequest localAddr req).url = localAddr ++ req.urlString ∧
    (buildLocalRequest localAddr req).method = req.method ∧
    (buildLocalRequest localAddr req).body = req.body ∧
    (∀ k, k ≠ "X-Forwarded-For" → k ≠ "X-Forwarded-Proto" →
      Header.get (buildLocalRequest localAddr req).header k = Header.get req.header k) ∧
    (req.remoteAddr ≠ "" →
      Header.get (buildLocalRequest localAddr req).header "X-Forwarded-For"
        = some [req.remoteAddr]) ∧
    Header.get (buildLocalRequest localAddr req).header "X-Forwarded-Proto" = some ["http"] := by
  refine ⟨rfl, rfl, rfl, ?_, ?_, ?_⟩
  · intro k hFor hProto
    simp only [buildLocalRequest, forwardHeader]
    rw [Header.get_set_other _ _ _ _ hProto]
    by_cases hra : req.remoteAddr ≠ ""
    · rw [if_pos hra, Header.get_set_other _ _ _ _ hFor]
      rfl
    · rw [if_neg hra]
      rfl
  · intro hra
    simp only [buildLocalRequest, forwardHeader]
    have hne : "X-Forwarded-For" ≠ "X-Forwarded-Proto" := by decide
    rw [Header.get_set_other _ _ _ _ hne, if_pos hra]
    exact Header.get_set_self _ _ _
  · exact Header.get_set_self _ _ _

/-- Concrete instantiation of upstream_request_construction: a GET /ping
request with one inbound header and a non-empty remote address. -/
theorem upstream_request_construction_witness :
    (buildLocalRequest "http://localhost:3000"
      { method := "GET", urlString := "/ping",
        header := [("Accept", ["text/html"])], body := "b0",
        remoteAddr := "1.2.3.4:5" }).url = "http://localhost:3000/ping" ∧
    Header.get (buildLocalRequest "http://localhost:3000"
      { method := "GET", urlString := "/ping",
        header := [("Accept", ["text/html"])], body := "b0",
        remoteAddr := "1.2.3.4:5" }).header "Accept" = some ["text/html"] ∧
    Header.get (buildLocalRequest "http://localhost:3000"
      { method := "GET", urlString := "/ping",
        header := [("Accept", ["text/html"])], body := "b0",
        remoteAddr := "1.2.3.4:5" }).header "X-Forwarded-For" = some ["1.2.3.4:5"] := by
  have h := upstream_request_construction "http://localhost:3000"
    { method := "GET", urlString := "/ping",
      header := [("Accept", ["text/html"])], body := "b0",
      remoteAddr := "1.2.3.4:5" }
  refine ⟨h.1, ?_, ?_⟩
  · have := h.2.2.2.1 "Accept" (by decide) (by decide)
    rw [this]; rfl
  · exact h.2.2.2.2.1 (by decide)

/-! ## Socket and lock operations of the origin

Each effectful call of the client is one Act value; a Go function that
touches the connection or the RWMutex named mu is embedded as the list of
acts it performs, in program order. connWrite is one call of conn.Write
with the given payload bytes. -/

def strBytes (s : String) : List Nat := s.data.map Char.toNat

inductive Act where
  | rlock
  | runlock
  | mlock
  | munlock
  | setWriteDeadline (secs : Nat)
  | setReadDeadline (secs : Nat)
  | connWrite (bytes : List Nat)
  | closeConn
deriving Repr, DecidableEq

/-- Status line written by Go http.Response.Write: proto, code, status text. -/
def statusLine (r : Response) : String :=
  "HTTP/1.1 " ++ toString r.statusCode ++ " " ++ r.statusText ++ "\r\n"

/-- Header block as written by Go Header.WriteSubset. -/
def headerLines (h : Header) : String :=
  String.join (h.map (fun kv => String.join (kv.2.map (fun v => kv.1 ++ ": " ++ v ++ "\r\n"))))

/-- The pieces Go http.Response.Write hands to its writer, in order: the
status line, the header block, the blank line ending the head, the body
copy. When the writer is the raw connection these are separate Write
calls; when it is a bytes.Buffer they are appended into one buffer. -/
def responseChunks (r : Response) : List String :=
  [statusLine r, headerLines r.header, "\r\n", r.bodyText]

/-- Full serialisation of a response, as accumulated in the bytes.Buffer of
TunnelClient.sendResponse. -/
def serializeResponse (r : Response) : String :=
  String.join (responseChunks r)

/-- Trace of TunnelClient.sendResponse (part_000 lines 246-269): read-lock
to fetch the conn field, read-unlock, and if a connection is present set a
30 s write deadline, serialise the whole response into a buffer and call
conn.Write once with the buffered bytes. No exclusive lock is taken. -/
def sendResponseTrace (connPresent : Bool) (r : Response) : List Act :=
  [Act.rlock, Act.runlock] ++
    (if connPresent then
      [Act.setWriteDeadline 30, Act.connWrite (strBytes (serializeResponse r))]
    else [])

/-- Go http.StatusText for the two codes the client synthesises. -/
def goStatusText (code : Nat) : String :=
  if code = 500 then "Internal Server Error"
  else if code = 502 then "Bad Gateway"
  else ""

/-- The response value constructed by TunnelClient.sendErrorResponse
(part_000 lines 280-292): given code and message, HTTP/1.1, plain-text
content type, content length of the message, and the message as body. -/
def errorResponse (code : Nat) (msg : String) : Response :=
  { statusCode := code,
    statusText := goStatusText code,
    header := [("Content-Type", ["text/plain; charset=utf-8"]),
               ("Content-Length", [toString msg.length])],
    bodyText := msg }

/-- Trace of TunnelClient.sendErrorResponse (part_000 lines 271-296):
read-lock to fetch conn, read-unlock, and if a connection is present set a
5 s write deadline and call resp.Write(conn), which writes the response
directly to the connection in separate Write calls per chunk — there is no
intermediate buffer and no exclusive lock. -/
def sendErrorResponseTrace (connPresent : Bool) (code : Nat) (msg : String) : List Act :=
  [Act.rlock, Act.runlock] ++
    (if connPresent then
      Act.setWriteDeadline 5 ::
        (responseChunks (errorResponse code msg)).map (fun c => Act.connWrite (strBytes c))
    else [])

/-- Number of conn.Write calls in a trace. -/
def writeCount (t : List Act) : Nat :=
  (t.filterMap (fun a => match a with | Act.connWrite b => some b | _ => none)).length

/-- Payloads of the conn.Write calls of a trace, in order. -/
def writePayloads (t : List Act) : List (List Nat) :=
  t.filterMap (fun a => match a with | Act.connWrite b => some b | _ => none)

def writesUnderExclusiveAux : Nat → List Act → Bool
  | _, [] => true
  | d, Act.mlock :: rest => writesUnderExclusiveAux (d + 1) rest
  | d, Act.munlock :: rest => writesUnderExclusiveAux (d - 1) rest
  | d, Act.connWrite _ :: rest => decide (0 < d) && writesUnderExclusiveAux d rest
  | d, _ :: rest => writesUnderExclusiveAux d rest

/-- True when every conn.Write of the trace happens while the exclusive
side of the mutex is held. -/
def writesUnderExclusive (t : List Act) : Bool :=
  writesUnderExclusiveAux 0 t

/-! ## Schedules of concurrent jobs

A schedule is an interleaving of the acts of several threads, tagged by a
thread id. rwValid checks it is feasible under Go sync.RWMutex semantics:
read locks may coexist, the exclusive lock excludes both readers and other
writers. -/

abbrev Sched := List (Nat × Act)

def tagActs (tid : Nat) (l : List Act) : Sched := l.map (fun a => (tid, a))

def schedProj (s : Sched) (tid : Nat) : List Act :=
  (s.filter (fun x => x.1 == tid)).map (fun x => x.2)

def rwValidAux : Nat → Bool → Sched → Bool
  | _, _, [] => true
  | r, w, (_, Act.rlock) :: rest => !w && rwValidAux (r + 1) w rest
  | r, w, (_, Act.runlock) :: rest => decide (0 < r) && rwValidAux (r - 1) w rest
  | r, w, (_, Act.mlock) :: rest => !w && (r == 0) && rwValidAux r true rest
  | r, w, (_, Act.munlock) :: rest => w && rwValidAux r false rest
  | r, w, (_, _) :: rest => rwValidAux r w rest

def rwValid (s : Sched) : Bool := rwValidAux 0 false s

/-- Thread ids of the conn.Write calls of a schedule, in stream order:
this is who owns each span of bytes on the wire. -/
def wireTids (s : Sched) : List Nat :=
  s.filterMap (fun x => match x.2 with | Act.connWrite _ => some x.1 | _ => none)

/-- Collapse consecutive equal elements. -/
def blocksOf : List Nat → List Nat
  | [] => []
  | a :: rest =>
    match blocksOf rest with
    | [] => [a]
    | b :: bs => if a == b then b :: bs else a :: b :: bs

/-- True when on the wire the writes of one thread are split by a write of
another thread: with two writers this is exactly the two messages having
interleaved bytes. -/
def messagesInterleaved (s : Sched) : Bool :=
  decide (2 < (blocksOf (wireTids s)).length)

/-- A successful upstream response used as a concrete message. -/
def pongResponse : Response :=
  { statusCode := 200, statusText := "OK",
    header := [("Content-Length", ["4"])], bodyText := "pong" }

/-- A feasible schedule of two concurrent jobs: thread 0 runs
sendErrorResponse, thread 1 runs sendResponse, and the single buffered
write of thread 1 lands between the status-line write and the header write
of thread 0. -/
def cexSchedule : Sched :=
  tagActs 0 ((sendErrorResponseTrace true 502 "Bad Gateway - Local API Error").take 4) ++
    tagActs 1 (sendResponseTrace true pongResponse) ++
      tagActs 0 ((sendErrorResponseTrace true 502 "Bad Gateway - Local API Error").drop 4)

theorem schedProj_append (s1 s2 : Sched) (tid : Nat) :
    schedProj (s1 ++ s2) tid = schedProj s1 tid ++ schedProj s2 tid := by
  simp [schedProj, List.filter_append]

theorem schedProj_tag_same (l : List Act) (tid : Nat) :
    schedProj (tagActs tid l) tid = l := by
  induction l with
  | nil => rfl
  | cons a t ih =>
    simp only [tagActs, List.map] at *
    simp only [schedProj, List.filter] at *
    simp [ih]

theorem schedProj_tag_other (l : List Act) (tid tid' : Nat) (h : tid' ≠ tid) :
    schedProj (tagActs tid l) tid' = [] := by
  induction l with
  | nil => rfl
  | cons a t ih =>
    have hb : (tid == tid') = false := beq_eq_false_iff_ne.mpr (fun he => h he.symm)
    simp only [tagActs, List.map] at *
    simp only [schedProj, List.filter] at *
    simpa [hb] using ih

/-- C1 (counterexample): at the concrete synthesised 502 error message and
a concurrent 200 pong response, the claim fails: the error response is
written in four conn.Write calls, not one, and neither writer performs its
writes while holding the write-mutex exclusively. -/
theorem write_mutex_atomicity_cex :
    ¬ (writeCount (sendErrorResponseTrace true 502 "Bad Gateway - Local API Error") = 1 ∧
       writesUnderExclusive (sendErrorResponseTrace true 502 "Bad Gateway - Local API Error")
         = true ∧
       writesUnderExclusive (sendResponseTrace true pongResponse) = true) := by
  intro h
  have h4 : writeCount (sendErrorResponseTrace true 502 "Bad Gateway - Local API Error") = 4 :=
    rfl
  rw [h4] at h
  exact absurd h.1 (by decide)

/-- C1 (amended): sendResponse buffers the whole serialised message and
issues it in a single conn.Write call, and sendErrorResponse writes the
message directly to the socket in four separate conn.Write calls; in both
paths the RWMutex is only read-locked to fetch the connection field and is
released before any write, so no write happens under the exclusive lock,
and there is a schedule, feasible under the mutex semantics, in which the
bytes of two concurrent jobs interleave on the stream. -/
theorem write_paths_actual_behaviour :
    (∀ r : Response, writeCount (sendResponseTrace true r) = 1 ∧
      writePayloads (sendResponseTrace true r) = [strBytes (serializeResponse r)] ∧
      writesUnderExclusive (sendResponseTrace true r) = false) ∧
    (∀ code msg, writeCount (sendErrorResponseTrace true code msg) = 4 ∧
      writesUnderExclusive (sendErrorResponseTrace true code msg) = false) ∧
    ∃ s : Sched, rwValid s = true ∧
      schedProj s 0 = sendErrorResponseTrace true 502 "Bad Gateway - Local API Error" ∧
      schedProj s 1 = sendResponseTrace true pongResponse ∧
      messagesInterleaved s = true := by
  refine ⟨fun r => ⟨rfl, rfl, rfl⟩, fun code msg => ⟨rfl, rfl⟩,
    cexSchedule, rfl, ?_, ?_, rfl⟩
  · simp only [cexSchedule]
    rw [schedProj_append, schedProj_append, schedProj_tag_same,
      schedProj_tag_other _ 1 0 (by decide), schedProj_tag_same]
    simp [List.take_append_drop]
  · simp only [cexSchedule]
    rw [schedProj_append, schedProj_append, schedProj_tag_same,
      schedProj_tag_other _ 0 1 (by decide), schedProj_tag_other _ 0 1 (by decide)]
    simp

/-! ## Origin dispatch loop (TunnelClient.handleRequests) -/

/-- Outcome of the http.ReadRequest call of one dispatch iteration: a
parsed request, io.EOF, a net.Error whose Timeout() is true (the read
deadline expired before a request was consumed), or any other error. -/
inductive ReadResult where
  | ok (req : Request)
  | eof
  | timeoutErr
  | otherErr (msg : String)
deriving Repr, DecidableEq

/-- What one iteration of the dispatch loop does after its read. -/
inductive DispatchStep where
  | exitWithErr (msg : String)
  | idleContinue
  | spawnJob (req : Request)
deriving Repr, DecidableEq

/-- Read deadline armed at the top of every dispatch iteration
(part_000 line 169): 60 seconds in the future. -/
def dispatchReadDeadlineSecs : Nat := 60

/-- Acts performed by one dispatch iteration before its read: nothing when
the context is already cancelled (the select exits), otherwise the read
deadline is set. -/
def dispatchIterActs (ctxDone : Bool) : List Act :=
  if ctxDone then [] else [Act.setReadDeadline dispatchReadDeadlineSecs]

/-- Embedding of one iteration of TunnelClient.handleRequests (part_000
lines 161-190): exit when the context is done; on a parsed request add a
waitgroup slot and spawn handleRequest as a goroutine; on io.EOF exit
reporting the tunnel closed by the remote server; on a timeout net.Error
continue the loop; on any other error exit with a read failure. -/
def handleRequestsStep (ctxDone : Bool) (r : ReadResult) : DispatchStep :=
  if ctxDone then DispatchStep.exitWithErr "context cancelled"
  else
    match r with
    | ReadResult.ok req => DispatchStep.spawnJob req
    | ReadResult.eof => DispatchStep.exitWithErr "tunnel closed by remote server"
    | ReadResult.timeoutErr => DispatchStep.idleContinue
    | ReadResult.otherErr m => DispatchStep.exitWithErr ("failed to read request: " ++ m)

/-- C2: each dispatch iteration arms a 60 s read deadline; a read-deadline
expiry is idle, not an error, and the loop continues; EOF terminates the
loop reporting the tunnel closed by the remote; every successfully parsed
request spawns a concurrent job. -/
theorem dispatch_loop_behaviour :
    dispatchIterActs false = [Act.setReadDeadline 60] ∧
    handleRequestsStep false ReadResult.timeoutErr = DispatchStep.idleContinue ∧
    handleRequestsStep false ReadResult.eof
      = DispatchStep.exitWithErr "tunnel closed by remote server" ∧
    (∀ req, handleRequestsStep false (ReadResult.ok req) = DispatchStep.spawnJob req) :=
  ⟨rfl, rfl, rfl, fun _ => rfl⟩

/-! ## Origin job (TunnelClient.handleRequest) -/

/-- Result of client.Do against the local API: a response, or a transport
error (connection refused, timeout, DNS failure, ...). -/
inductive UpstreamResult where
  | ok (resp : Response)
  | fail (errMsg : String)
deriving Repr, DecidableEq

/-- What a job does at its end: hand a real upstream response to
sendResponse, or hand a synthesised status and message to
sendErrorResponse. -/
inductive JobOutcome where
  | respond (r : Response)
  | respondError (code : Nat) (msg : String)
deriving Repr, DecidableEq

/-- Embedding of the outcome selection of TunnelClient.handleRequest
(part_000 lines 205-241): when http.NewRequestWithContext fails the job
sends a 500 Internal Server Error; when client.Do fails the job sends 502
with body Bad Gateway - Local API Error; otherwise the upstream response
is sent back unchanged. -/
def handleRequestOutcome (buildErr : Bool) (u : UpstreamResult) : JobOutcome :=
  if buildErr then JobOutcome.respondError 500 "Internal Server Error"
  else
    match u with
    | UpstreamResult.ok resp => JobOutcome.respond resp
    | UpstreamResult.fail _ => JobOutcome.respondError 502 "Bad Gateway - Local API Error"

/-- Trace of the job act stream for a given outcome: both outcomes go
through the send paths embedded above; the job never closes the
connection. -/
def jobTrace (connPresent : Bool) : JobOutcome → List Act
  | JobOutcome.respond r => sendResponseTrace connPresent r
  | JobOutcome.respondError code msg => sendErrorResponseTrace connPresent code msg

/-- C3: every upstream failure makes the origin write back a synthesised
response with status 502 and body exactly Bad Gateway - Local API Error,
and the act trace of that job contains no close of the tunnel connection,
so the session survives the failure. -/
theorem upstream_failure_sends_502 :
    (∀ e, handleRequestOutcome false (UpstreamResult.fail e)
      = JobOutcome.respondError 502 "Bad Gateway - Local API Error") ∧
    (errorResponse 502 "Bad Gateway - Local API Error").statusCode = 502 ∧
    (errorResponse 502 "Bad Gateway - Local API Error").bodyText
      = "Bad Gateway - Local API Error" ∧
    (∀ cp e, Act.closeConn ∉
      jobTrace cp (handleRequestOutcome false (UpstreamResult.fail e))) := by
  refine ⟨fun _ => rfl, rfl, rfl, fun cp e => ?_⟩
  cases cp <;> simp [jobTrace, handleRequestOutcome, sendErrorResponseTrace, responseChunks]

/-! ## Redirect policy of the local HTTP client

The client built in handleRequest installs a CheckRedirect function that
always returns http.ErrUseLastResponse. The Go client redirect loop is
modelled below, parameterised by the CheckRedirect function and by the
construction of the follow-up request, so that the instantiation with the
code shows the loop never follows. -/

inductive RedirectDecision where
  | follow
  | useLastResponse
  | abort (e : String)
deriving Repr, DecidableEq

/-- The CheckRedirect installed by handleRequest (part_000 lines 224-226):
it returns http.ErrUseLastResponse for every request and via chain. -/
def clientCheckRedirect (_req : LocalRequest) (_via : List LocalRequest) : RedirectDecision :=
  RedirectDecision.useLastResponse

def isRedirectStatus (s : Nat) : Bool :=
  s == 301 || s == 302 || s == 303 || s == 307 || s == 308

def redirectTarget (r : Response) : Option String :=
  (Header.get r.header "Location").bind List.head?

/-- Modelled from the Go net/http client redirect loop: issue the request;
when the response is a redirect with a Location header, build the next
request and consult CheckRedirect — ErrUseLastResponse returns the current
response with its body unread, an error aborts, otherwise the loop
follows; a non-redirect response is returned as is. mkNext stands for the
URL-resolution step of the real client. -/
def clientDoLoop (check : LocalRequest → List LocalRequest → RedirectDecision)
    (mkNext : LocalRequest → String → LocalRequest)
    (upstream : LocalRequest → Response) :
    Nat → List LocalRequest → LocalRequest → Except String Response
  | 0, _, _ => Except.error "stopped after 10 redirects"
  | fuel + 1, via, req =>
    let resp := upstream req
    match redirectTarget resp with
    | some loc =>
      if isRedirectStatus resp.statusCode then
        match check (mkNext req loc) (via ++ [req]) with
        | RedirectDecision.useLastResponse => Except.ok resp
        | RedirectDecision.abort e => Except.error e
        | RedirectDecision.follow => clientDoLoop check mkNext upstream fuel (via ++ [req]) (mkNext req loc)
      else Except.ok resp
    | none => Except.ok resp

/-- The client.Do of handleRequest: the redirect loop with the CheckRedirect
of the code. -/
def clientDo (mkNext : LocalRequest → String → LocalRequest)
    (upstream : LocalRequest → Response) (req : LocalRequest) : Except String Response :=
  clientDoLoop clientCheckRedirect mkNext upstream 10 [] req

/-- C6: whatever the upstream behaviour — in particular when the upstream
response is a redirect — the client of the origin returns the first
response unchanged, never following, and that response is exactly what the
job hands to sendResponse. -/
theorem redirects_not_followed (mkNext : LocalRequest → String → LocalRequest)
    (upstream : LocalRequest → Response) (req : LocalRequest) :
    clientDo mkNext upstream req = Except.ok (upstream req) ∧
    handleRequestOutcome false (UpstreamResult.ok (upstream req))
      = JobOutcome.respond (upstream req) := by
  constructor
  · show clientDoLoop _ _ _ 10 [] req = _
    simp only [clientDoLoop]
    cases h : redirectTarget (upstream req) with
    | none => rfl
    | some loc =>
      by_cases hs : isRedirectStatus (upstream req).statusCode = true
      · simp [hs, clientCheckRedirect]
      · simp [hs]
  · rfl

/-- Concrete instantiation of redirects_not_followed: a 302 upstream with a
Location header is returned to the tunnel as the 302 itself. -/
theorem redirects_not_followed_witness :
    clientDo (fun r _ => r)
      (fun _ => { statusCode := 302, statusText := "Found",
                  header := [("Location", ["http://elsewhere/x"])], bodyText := "" })
      { method := "GET", url := "http://localhost:3000/r", header := [], body := "" }
      = Except.ok { statusCode := 302, statusText := "Found",
                    header := [("Location", ["http://elsewhere/x"])], bodyText := "" } :=
  (redirects_not_followed (fun r _ => r)
    (fun _ => { statusCode := 302, statusText := "Found",
                header := [("Location", ["http://elsewhere/x"])], bodyText := "" })
    { method := "GET", url := "http://localhost:3000/r", header := [], body := "" }).1

/-! ## Flag defaults of the origin (part_000 lines 20-26) -/

def defaultRemoteAddr : String := "http://localhost:8080"
def defaultLocalAddr : String := "http://localhost:3000"
def reconnectDefaultSecs : Nat := 5
def keepaliveDefaultSecs : Nat := 10
def timeoutDefaultSecs : Nat := 30

/-! ## Keep-alive task (TunnelClient.keepAlive) -/

/-- An event the keep-alive select observes: the cancellation token firing,
or a ticker tick on which the write then succeeds or fails. -/
inductive KAEvent where
  | ctxDone
  | tick (writeErr : Bool)
deriving Repr, DecidableEq

/-- Result of one keep-alive select arm: exit the task or continue looping,
with the acts performed. -/
inductive KAStep where
  | exitTask (acts : List Act)
  | continueLoop (acts : List Act)
deriving Repr, DecidableEq

def KAStep.acts : KAStep → List Act
  | KAStep.exitTask a => a
  | KAStep.continueLoop a => a

def KAStep.isExit : KAStep → Bool
  | KAStep.exitTask _ => true
  | KAStep.continueLoop _ => false

/-- Embedding of one select round of TunnelClient.keepAlive (part_000 lines
127-147): on ctx.Done the task returns; on a tick it read-locks to fetch
conn and unlocks; a nil conn makes it return; otherwise it sets a 5 s
write deadline and writes the single byte 0x00; a write error closes the
connection and returns, success loops. -/
def keepAliveStep (connPresent : Bool) : KAEvent → KAStep
  | KAEvent.ctxDone => KAStep.exitTask []
  | KAEvent.tick writeErr =>
    if connPresent then
      if writeErr then
        KAStep.exitTask
          [Act.rlock, Act.runlock, Act.setWriteDeadline 5, Act.connWrite [0], Act.closeConn]
      else
        KAStep.continueLoop
          [Act.rlock, Act.runlock, Act.setWriteDeadline 5, Act.connWrite [0]]
    else KAStep.exitTask [Act.rlock, Act.runlock]

/-- C7: the keep-alive interval defaults to 10 s; on every tick with a live
connection the task sets a 5 s write deadline and performs exactly one
write, of exactly the single byte 0x00; on a write error it closes the
session and exits; on the cancellation token it exits having done
nothing. -/
theorem keepalive_task_behaviour :
    keepaliveDefaultSecs = 10 ∧
    (∀ we, writePayloads (keepAliveStep true (KAEvent.tick we)).acts = [[0]] ∧
      Act.setWriteDeadline 5 ∈ (keepAliveStep true (KAEvent.tick we)).acts) ∧
    (keepAliveStep true (KAEvent.tick true)).isExit = true ∧
    Act.closeConn ∈ (keepAliveStep true (KAEvent.tick true)).acts ∧
    (keepAliveStep true (KAEvent.tick false)).isExit = false ∧
    Act.closeConn ∉ (keepAliveStep true (KAEvent.tick false)).acts ∧
    keepAliveStep true KAEvent.ctxDone = KAStep.exitTask [] := by
  refine ⟨rfl, fun we => ⟨?_, ?_⟩, rfl, by decide, rfl, by decide, rfl⟩
  · cases we <;> rfl
  · cases we <;> decide

/-! ## Reconnect supervisor (TunnelClient.Run and TunnelClient.connect) -/

/-- Connect timeout of net.DialTimeout in connect (part_000 line 97). -/
def dialTimeoutSecs : Nat := 10

/-- The dial call issued by TunnelClient.connect: network tcp, the
remoteAddr field verbatim, the 10 s connect timeout. -/
structure DialCall where
  network : String
  address : String
  timeoutSecs : Nat
deriving Repr, DecidableEq

def connectDialCall (remoteAddr : String) : DialCall :=
  { network := "tcp", address := remoteAddr, timeoutSecs := dialTimeoutSecs }

/-- Outcome of the dial inside connect. -/
inductive DialResult where
  | ok
  | fail (e : String)
deriving Repr, DecidableEq

/-- What TunnelClient.connect does after the dial (part_000 lines 97-118):
on dial failure it returns the wrapped error at once; on success it
installs the connection in the client under the lock, starts the
keep-alive goroutine, and runs handleRequests until that loop returns an
error, which connect then propagates after closing the connection. -/
structure ConnectOutcome where
  installsConn : Bool
  startsKeepAlive : Bool
  runsDispatch : Bool
  err : Option String
deriving Repr, DecidableEq

def connectOutcome (d : DialResult) (dispatchErr : String) : ConnectOutcome :=
  match d with
  | DialResult.fail e =>
    { installsConn := false, startsKeepAlive := false, runsDispatch := false,
      err := some ("connection failed: " ++ e) }
  | DialResult.ok =>
    { installsConn := true, startsKeepAlive := true, runsDispatch := true,
      err := some dispatchErr }

/-- One turn of the Run loop (part_000 lines 70-91). -/
inductive RunStep where
  | stopped
  | waitThenRetry (delaySecs : Nat)
  | stopDuringDelay
  | loopAgain
deriving Repr, DecidableEq

/-- Embedding of one iteration of TunnelClient.Run: exit when the context
is done; when connect returned an error, wait in a select on the context
and the reconnect delay — cancellation during the delay stops the loop,
the delay elapsing retries; a nil error loops again. -/
def runStep (reconnectDelaySecs : Nat) (ctxDone : Bool) (connectErr : Option String)
    (cancelDuringDelay : Bool) : RunStep :=
  if ctxDone then RunStep.stopped
  else
    match connectErr with
    | some _ =>
      if cancelDuringDelay then RunStep.stopDuringDelay
      else RunStep.waitThenRetry reconnectDelaySecs
    | none => RunStep.loopAgain

/-- C8: the Disconnected-to-Connected transition dials with a 10 s connect
timeout; a successful dial installs the session and starts the keep-alive
and dispatch loops; a failed dial yields an error on which Run waits the
reconnect delay (default 5 s) observing cancellation and then retries. -/
theorem reconnect_state_machine :
    (∀ r, connectDialCall r = { network := "tcp", address := r, timeoutSecs := 10 }) ∧
    (∀ de, (connectOutcome DialResult.ok de).installsConn = true ∧
      (connectOutcome DialResult.ok de).startsKeepAlive = true ∧
      (connectOutcome DialResult.ok de).runsDispatch = true) ∧
    (∀ e de, (connectOutcome (DialResult.fail e) de).installsConn = false ∧
      (connectOutcome (DialResult.fail e) de).err = some ("connection failed: " ++ e)) ∧
    reconnectDefaultSecs = 5 ∧
    (∀ d e, runStep d false (some e) false = RunStep.waitThenRetry d) ∧
    (∀ d e, runStep d false (some e) true = RunStep.stopDuringDelay) :=
  ⟨fun _ => rfl, fun _ => ⟨rfl, rfl, rfl⟩, fun _ _ => ⟨rfl, rfl⟩, rfl,
    fun _ _ => rfl, fun _ _ => rfl⟩

/-! ## The remote address is dialled verbatim

connect passes tc.remoteAddr, the raw value of the -remote flag, to
net.DialTimeout without stripping a URL scheme. Modelled from the Go net
package semantics: the address of a tcp dial is split at the last colon
into host and port, and the host must be an IP literal or a resolvable DNS
name; a host containing a slash is neither, so such a dial can never
succeed. goDialCanSucceed below is that necessary condition. -/

def splitLastColonAux : List Char → Option (List Char × List Char)
  | [] => none
  | c :: rest =>
    match splitLastColonAux rest with
    | some (h, p) => some (c :: h, p)
    | none => if c = ':' then some ([], rest) else none

def goSplitHostPort (s : String) : Option (String × String) :=
  (splitLastColonAux s.data).map (fun hp => (String.mk hp.1, String.mk hp.2))

def charsHaveSlash : List Char → Bool
  | [] => false
  | c :: rest => (c == '/') || charsHaveSlash rest

def goDialCanSucceed (addr : String) : Bool :=
  match splitLastColonAux addr.data with
  | none => false
  | some (h, _) => !(charsHaveSlash h)

/-- Connectivity states of the origin supervisor. -/
inductive CState where
  | disconnected
  | connected
deriving Repr, DecidableEq

/-- Reachable state after n turns of the Run loop, driven by a dial oracle
telling whether a dial of a given address succeeds: from Disconnected a
successful dial is the only way to Connected. -/
def runReach (oracle : String → Bool) (remoteAddr : String) : Nat → CState
  | 0 => CState.disconnected
  | n + 1 =>
    match runReach oracle remoteAddr n with
    | CState.disconnected =>
      if oracle remoteAddr then CState.connected else CState.disconnected
    | CState.connected => CState.connected

/-- C9: the origin hands the -remote flag value unmodified to the TCP
dialer; the default value splits into host http://localhost and port 8080,
the host contains a slash, so the dial can never succeed, and under any
dial oracle consistent with that the client never reaches Connected with
the default flags. -/
theorem default_remote_never_connects (oracle : String → Bool)
    (hconsistent : ∀ a, goDialCanSucceed a = false → oracle a = false) :
    (∀ r, (connectDialCall r).address = r) ∧
    goSplitHostPort defaultRemoteAddr = some ("http://localhost", "8080") ∧
    goDialCanSucceed defaultRemoteAddr = false ∧
    (∀ n, runReach oracle defaultRemoteAddr n = CState.disconnected) := by
  refine ⟨fun _ => rfl, by decide, by decide, fun n => ?_⟩
  induction n with
  | zero => rfl
  | succ m ih =>
    have hor : oracle defaultRemoteAddr = false := hconsistent _ (by decide)
    simp [runReach, ih, hor]

/-- Concrete instantiation of default_remote_never_connects with the
always-failing oracle and five loop turns. -/
theorem default_remote_never_connects_witness :
    goDialCanSucceed defaultRemoteAddr = false ∧
    runReach (fun _ => false) defaultRemoteAddr 5 = CState.disconnected := by
  have h := default_remote_never_connects (fun _ => false) (fun _ _ => rfl)
  exact ⟨h.2.2.1, h.2.2.2 5⟩

/-! ## Edge server (cmd/server/main.go) -/

/-- The only route registered by the server main: http.HandleFunc binds
/tunnel to handleTunnel on the default mux, and the server listens on
:8080; no other pattern — in particular no /health — is registered, and no
second public port is opened. -/
def registeredRoutes : List String := ["/tunnel"]

structure EdgeResponse where
  status : Nat
  body : String
deriving Repr, DecidableEq

inductive EdgeAnswer where
  | tunnelHandler
  | plainResponse (r : EdgeResponse)
deriving Repr, DecidableEq

/-- Modelled from the Go http.ServeMux dispatch over the routes of main: a
registered pattern without a trailing slash matches only the identical
path, so a matched request reaches handleTunnel, and an unmatched path is
answered by the NotFound handler with status 404 and body
404 page not found plus newline. The tunnelConnected argument is carried
only to show the answer does not depend on it. -/
def serveEdge (path : String) (_tunnelConnected : Bool) : EdgeAnswer :=
  if registeredRoutes.contains path then EdgeAnswer.tunnelHandler
  else EdgeAnswer.plainResponse { status := 404, body := "404 page not found\n" }

/-- C4: the server registers no /health route, so a GET /health receives
the default 404 Not Found answer whether or not a tunnel connection
exists — not the 200 Tunnel: Connected or 503 Tunnel: Disconnected the
claim states. -/
theorem health_route_missing :
    serveEdge "/health" true
      = EdgeAnswer.plainResponse { status := 404, body := "404 page not found\n" } ∧
    serveEdge "/health" false
      = EdgeAnswer.plainResponse { status := 404, body := "404 page not found\n" } ∧
    (∀ r : EdgeResponse, serveEdge "/health" true = EdgeAnswer.plainResponse r →
      r.status ≠ 200 ∧ r.status ≠ 503) := by
  refine ⟨rfl, rfl, fun r hr => ?_⟩
  have : r = { status := 404, body := "404 page not found\n" } := by
    have h404 : serveEdge "/health" true
        = EdgeAnswer.plainResponse { status := 404, body := "404 page not found\n" } := rfl
    rw [h404] at hr
    exact (EdgeAnswer.plainResponse.injEq _ _).mp hr.symm
  subst this
  exact ⟨by decide, by decide⟩

/-- Concrete consequence of health_route_missing: the status answered on
GET /health with a tunnel present is not 200. -/
theorem health_route_missing_witness :
    serveEdge "/health" true
      ≠ EdgeAnswer.plainResponse { status := 200, body := "Tunnel: Connected\n" } := by
  intro hcontra
  have h := health_route_missing
  have := (h.2.2 { status := 200, body := "Tunnel: Connected\n" } hcontra).1
  exact this rfl

/-! ## WebSocket loop of the server (handleTunnel) -/

inductive WsMsgType where
  | textMsg
  | binaryMsg
  | otherMsg
deriving Repr, DecidableEq

/-- A read result of ws.ReadMessage, with the success of the echo write
that would follow attached: a read error, or a message of some type with
its payload. -/
inductive WsEvent where
  | readErr
  | msg (mt : WsMsgType) (payload : List Nat) (writeOk : Bool)
deriving Repr, DecidableEq

/-- The only effect the handler performs: WriteMessage(BinaryMessage,
payload) back on the same connection. -/
inductive WsAction where
  | echo (payload : List Nat)
deriving Repr, DecidableEq

/-- Embedding of the handleTunnel read loop (main.go lines 30-48) after a
successful upgrade: a read error returns; a message whose type is not
BinaryMessage is skipped; a binary message is echoed back verbatim on the
same connection, and a write error returns after the attempted write. The
result is the list of writes the handler performs for a given sequence of
read results. -/
def handleTunnelActions : List WsEvent → List WsAction
  | [] => []
  | WsEvent.readErr :: _ => []
  | WsEvent.msg mt p writeOk :: rest =>
    if mt = WsMsgType.binaryMsg then
      if writeOk then WsAction.echo p :: handleTunnelActions rest
      else [WsAction.echo p]
    else handleTunnelActions rest

/-- C10: every binary message received on /tunnel is written back to the
same connection with identical bytes, every non-binary message is silently
discarded, and every write the server performs is an echo of a received
binary payload — the server forwards nothing anywhere else. -/
theorem server_echoes_binary_only :
    (∀ p rest, handleTunnelActions (WsEvent.msg WsMsgType.binaryMsg p true :: rest)
      = WsAction.echo p :: handleTunnelActions rest) ∧
    (∀ mt p ok rest, mt ≠ WsMsgType.binaryMsg →
      handleTunnelActions (WsEvent.msg mt p ok :: rest) = handleTunnelActions rest) ∧
    (∀ events a, a ∈ handleTunnelActions events →
      ∃ p ok, a = WsAction.echo p ∧ WsEvent.msg WsMsgType.binaryMsg p ok ∈ events) := by
  refine ⟨fun p rest => rfl, fun mt p ok rest hm => ?_, fun events => ?_⟩
  · simp [handleTunnelActions, hm]
  · induction events with
    | nil => intro a h; simp [handleTunnelActions] at h
    | cons e rest ih =>
      intro a h
      cases e with
      | readErr => simp [handleTunnelActions] at h
      | msg mt p ok =>
        by_cases hm : mt = WsMsgType.binaryMsg
        · subst hm
          cases ok with
          | false =>
            simp [handleTunnelActions] at h
            exact ⟨p, false, by simp [h], by simp⟩
          | true =>
            simp [handleTunnelActions] at h
            rcases h with h | h
            · exact ⟨p, true, by simp [h], by simp⟩
            · obtain ⟨q, ok', hq, hmem⟩ := ih a h
              exact ⟨q, ok', hq, by simp [hmem]⟩
        · rw [show handleTunnelActions (WsEvent.msg mt p ok :: rest)
              = handleTunnelActions rest by simp [handleTunnelActions, hm]] at h
          obtain ⟨q, ok', hq, hmem⟩ := ih a h
          exact ⟨q, ok', hq, by simp [hmem]⟩

/-- Concrete instantiation of server_echoes_binary_only: a binary message,
a text message and another binary message produce exactly the two binary
echoes. -/
theorem server_echoes_binary_only_witness :
    handleTunnelActions
      [WsEvent.msg WsMsgType.binaryMsg [1, 2] true,
       WsEvent.msg WsMsgType.textMsg [9] true,
       WsEvent.msg WsMsgType.binaryMsg [3] true]
      = [WsAction.echo [1, 2], WsAction.echo [3]] := by
  have h := server_echoes_binary_only
  rw [h.1 [1, 2] _,
    h.2.1 WsMsgType.textMsg [9] true _ (by decide),
    h.1 [3] []]
  rfl

/-! ## Concrete instantiations of the remaining quantified theorems -/

/-- Concrete instantiation of write_paths_actual_behaviour: one write call
for the buffered pong response, four for the synthesised 502. -/
theorem write_paths_actual_behaviour_witness :
    writeCount (sendResponseTrace true pongResponse) = 1 ∧
    writeCount (sendErrorResponseTrace true 502 "Bad Gateway - Local API Error") = 4 := by
  have h := write_paths_actual_behaviour
  exact ⟨(h.1 pongResponse).1, (h.2.1 502 "Bad Gateway - Local API Error").1⟩

/-- Concrete instantiation of dispatch_loop_behaviour: a parsed GET /ping
spawns a job. -/
theorem dispatch_loop_behaviour_witness :
    handleRequestsStep false
      (ReadResult.ok { method := "GET", urlString := "/ping", header := [],
                       body := "", remoteAddr := "" })
      = DispatchStep.spawnJob { method := "GET", urlString := "/ping", header := [],
                                body := "", remoteAddr := "" } := by
  have h := dispatch_loop_behaviour
  exact h.2.2.2 { method := "GET", urlString := "/ping", header := [],
                  body := "", remoteAddr := "" }

/-- Concrete instantiation of upstream_failure_sends_502 at a refused
connection. -/
theorem upstream_failure_sends_502_witness :
    handleRequestOutcome false (UpstreamResult.fail "connection refused")
      = JobOutcome.respondError 502 "Bad Gateway - Local API Error" ∧
    Act.closeConn ∉
      jobTrace true (handleRequestOutcome false (UpstreamResult.fail "connection refused")) := by
  have h := upstream_failure_sends_502
  exact ⟨h.1 "connection refused", h.2.2.2 true "connection refused"⟩

/-- Concrete instantiation of keepalive_task_behaviour at a successful
tick. -/
theorem keepalive_task_behaviour_witness :
    writePayloads (keepAliveStep true (KAEvent.tick false)).acts = [[0]] := by
  have h := keepalive_task_behaviour
  exact (h.2.1 false).1

/-- Concrete instantiation of reconnect_state_machine at a refused dial
under the default delay. -/
theorem reconnect_state_machine_witness :
    runStep 5 false (some "connection failed: dial refused") false
      = RunStep.waitThenRetry 5 := by
  have h := reconnect_state_machine
  exact h.2.2.2.2.1 5 "connection failed: dial refused"

end Intunja
